import Mathlib

/-!
Verification of the `shannot` sandbox permission engine and struct layout
encoder, shallowly embedded from `shannot/mix_subprocess.py`,
`sandboxlib/mix_subprocess.py`, `sandboxlib/queue.py`,
`sandboxlib/session.py` and `shannot/structs.py`.

Command strings are modelled as `List Char` (the character sequence of the
Python `str`), so that every operation is structurally recursive and
kernel-evaluable.
-/

namespace Shannot

/-- Short name for the model of a Python `str`. -/
abbrev Str := List Char

/-- Python `str.split()` whitespace predicate: space, tab, newline,
carriage return, vertical tab, form feed. -/
def pyIsSpace (c : Char) : Bool :=
  c = ' ' || c = '\t' || c = '\n' || c = '\r' ||
  c = Char.ofNat 11 || c = Char.ofNat 12

/-- Worker for `pySplit`: accumulates the current word (reversed) in `acc`. -/
def pySplitAux : Str → Str → List Str
  | [], acc => if acc = [] then [] else [acc.reverse]
  | c :: cs, acc =>
    if pyIsSpace c then
      if acc = [] then pySplitAux cs [] else acc.reverse :: pySplitAux cs []
    else
      pySplitAux cs (c :: acc)

/-- Python `cmd.split()`: split on runs of whitespace, dropping empty
fields (so a whitespace-only string yields `[]`). -/
def pySplit (s : Str) : List Str := pySplitAux s []

/-- Python `base.split("/")[-1]`: the characters after the last `/`
(the whole string when it has no `/`). -/
def stripPath (t : Str) : Str :=
  (t.reverse.takeWhile (fun c => c ≠ '/')).reverse

/-- `MixSubprocess._parse_command` (mix_subprocess.py): split the shell
string on whitespace; `base` starts as the first token and becomes the
first token containing no `=` if one exists (skipping `FOO=bar`
environment prefixes); finally the path prefix is stripped from `base`.
Returns `(base, parts)`; `("", [])` for an empty split. -/
def _parse_command (cmd : Str) : Str × List Str :=
  let parts := pySplit cmd
  match parts with
  | [] => ([], [])
  | p0 :: _ =>
    let base :=
      match parts.find? (fun p => ! p.contains '=') with
      | some p => p
      | none => p0
    (stripPath base, parts)

/-- The three-way permission decision of `_check_permission`. -/
inductive Perm where
  | allow
  | deny
  | queue
deriving DecidableEq, Repr

/-- `MixSubprocess._check_permission` (mix_subprocess.py): tiered check,
first match wins: (1) base or exact string in `subprocess_always_deny` →
deny; (2) exact string in `subprocess_approved` → allow; (3) base or
exact string in `subprocess_auto_approve` → allow; (4) otherwise queue.
The Python sets are modelled as lists queried by membership. -/
def _check_permission (always_deny approved auto_approve : List Str)
    (cmd : Str) : Perm :=
  let base := (_parse_command cmd).1
  if always_deny.contains base || always_deny.contains cmd then .deny
  else if approved.contains cmd then .allow
  else if auto_approve.contains base || auto_approve.contains cmd then .allow
  else .queue

/-- A tracked file write awaiting approval (an entry of
`file_writes_pending`; the Python `PendingWrite` objects are converted via
`to_dict` when finalizing — modelled here directly as their dictionary
form: path, content, whether the target file is new). -/
structure FileWrite where
  path : Str
  content : Str
  is_new : Bool
deriving DecidableEq, Repr

/-- The mutable `MixSubprocess` attributes that the subprocess handlers
read and write, together with the durable pending-queue file
(`/tmp/shannot-pending.json`, written by `sandboxlib/queue.py
write_pending`, modelled as `pending_file`). The session-context
attributes (`subprocess_script_*`, `subprocess_analysis`,
`subprocess_sandbox_args`) are carried for `finalize_session`. -/
structure SubpState where
  subprocess_auto_approve : List Str
  subprocess_always_deny : List Str
  subprocess_dry_run : Bool
  subprocess_pending : List Str
  subprocess_approved : List Str
  file_writes_pending : List FileWrite
  pending_file : List Str
  subprocess_script_name : Option Str
  subprocess_script_path : Option Str
  subprocess_script_content : Option Str
  subprocess_analysis : Option Str
  subprocess_sandbox_args : List (Str × Str)
deriving DecidableEq, Repr

/-- `MixSubprocess.subprocess_auto_persist`: class-level constant `True`;
no code in the repository ever assigns it, so it is embedded as a
constant. -/
def subprocess_auto_persist : Bool := true

/-- Observable events emitted by one `s_system` call, in program order:
a durable write of the whole pending queue (`save_pending` →
`write_pending`), the spawning of a real subprocess
(`_execute_command`), and the status replied to the sandboxed child
(the handler's return value, encoded onto the wire by the dispatcher
after the handler returns). -/
inductive Event where
  | persist (queue : List Str)
  | exec (cmd : Str)
  | reply (status : Int)
deriving DecidableEq, Repr

/-- Result of one `s_system` call: the status returned to the child, the
state after the call, and the ordered event trace. -/
structure SysResult where
  status : Int
  state : SubpState
  trace : List Event
deriving DecidableEq, Repr

/-- `MixSubprocess.s_system` (mix_subprocess.py) applied to the already
decoded command string: dry-run queues and persists and replies 0;
otherwise classify and (deny → 127, nothing runs; queue → append to
pending, persist, reply fabricated 0; allow → run the command through a
real shell and reply its genuine exit code). `execRes` is the oracle
giving the exit status of a really executed shell command. The
`sys.stderr` diagnostics are not modelled. -/
def s_system (execRes : Str → Int) (st : SubpState) (cmd : Str) : SysResult :=
  if st.subprocess_dry_run then
    let pending := st.subprocess_pending ++ [cmd]
    let st' := { st with
      subprocess_pending := pending,
      pending_file := if subprocess_auto_persist then pending
                      else st.pending_file }
    { status := 0, state := st',
      trace := (if subprocess_auto_persist then [Event.persist pending]
                else []) ++ [Event.reply 0] }
  else
    match _check_permission st.subprocess_always_deny st.subprocess_approved
        st.subprocess_auto_approve cmd with
    | .deny =>
      { status := 127, state := st, trace := [Event.reply 127] }
    | .queue =>
      let pending := st.subprocess_pending ++ [cmd]
      let st' := { st with
        subprocess_pending := pending,
        pending_file := if subprocess_auto_persist then pending
                        else st.pending_file }
      { status := 0, state := st',
        trace := (if subprocess_auto_persist then [Event.persist pending]
                  else []) ++ [Event.reply 0] }
    | .allow =>
      { status := execRes cmd, state := st,
        trace := [Event.exec cmd, Event.reply (execRes cmd)] }

/-- Running `s_system` over a list of requests in order, keeping only the
final state (the event interleaving is irrelevant for queue-order
results). -/
def run_commands (execRes : Str → Int) (st : SubpState) (cmds : List Str) :
    SubpState :=
  cmds.foldl (fun s c => (s_system execRes s c).state) st

/-- Python `pathlib.Path(p).stem`: the final path component without its
last suffix; a suffix exists only when the last `.` is neither the first
nor the last character of the component. -/
def path_stem (p : Str) : Str :=
  let b := stripPath p
  if b.contains '.' then
    let k := (b.reverse.takeWhile (fun c => c != '.')).length
    let i := b.length - 1 - k
    if 0 < i ∧ i < b.length - 1 then b.take i else b
  else b

/-- The reviewable unit built by `create_session` (sandboxlib/session.py):
queued commands plus originating-script metadata plus (in the shannot
variant) the tracked pending file writes. The generated id and
save-to-disk side effects are session-persistence concerns outside this
model. -/
structure Session where
  name : Str
  script_path : Str
  commands : List Str
  script_content : Option Str
  analysis : Str
  sandbox_args : List (Str × Str)
  pending_writes : List FileWrite
deriving DecidableEq, Repr

/-- `create_session` (sandboxlib/session.py): default the name to
`Path(script_path).stem`, record the command list verbatim and the
metadata. The `pending_writes` argument is the shannot variant's extra
parameter; `shannot/session.py` is not under src, so that field is
modelled from the spec (the reviewable unit bundles the pending writes)
as recorded verbatim. -/
def create_session (script_path : Str) (commands : List Str)
    (script_content : Option Str) (name : Option Str) (analysis : Str)
    (sandbox_args : List (Str × Str)) (pending_writes : List FileWrite) :
    Session :=
  { name := name.getD (path_stem script_path)
    script_path := script_path
    commands := commands
    script_content := script_content
    analysis := analysis
    sandbox_args := sandbox_args
    pending_writes := pending_writes }

/-- `MixSubprocess.finalize_session` (shannot/mix_subprocess.py): if both
the pending queue and the tracked pending writes are empty, return
nothing to review; otherwise build the session from the queued commands,
the converted pending writes and the script metadata, then clear the
in-memory pending state. Returns the optional session and the state
after the call. -/
def finalize_session (st : SubpState) : Option Session × SubpState :=
  if st.subprocess_pending = [] ∧ st.file_writes_pending = [] then
    (none, st)
  else
    let session := create_session
      (st.subprocess_script_path.getD "<unknown>".data)
      st.subprocess_pending
      st.subprocess_script_content
      st.subprocess_script_name
      (st.subprocess_analysis.getD [])
      st.subprocess_sandbox_args
      st.file_writes_pending
    (some session,
     { st with subprocess_pending := [], file_writes_pending := [] })

/-! ### Struct/Layout Encoder (shannot/structs.py) -/

/-- The 64-bit Linux architectures whose `struct stat` layout
`shannot/structs.py` declares (`ARCH == "aarch64"` and
`ARCH == "x86_64"` branches). -/
inductive TargetArch where
  | aarch64
  | x86_64
deriving DecidableEq, Repr

/-- Round `off` up to the next multiple of the alignment `a`. -/
def alignUp (off a : Nat) : Nat := ((off + a - 1) / a) * a

/-- ctypes `Structure` sizeof over a list of fields given as
`(byte size, alignment)`: each field is placed at the next offset aligned
to its alignment, and the total is rounded up to the largest field
alignment. -/
def layoutSize (fields : List (Nat × Nat)) : Nat :=
  let fin := fields.foldl
    (fun (p : Nat × Nat) f => (alignUp p.1 f.2 + f.1, max p.2 f.2)) (0, 1)
  alignUp fin.1 fin.2

/-- `(size, alignment)` of the primitive ctypes field types on 64-bit
Linux, and of `Timespec` (two `c_long`) and the fixed arrays used in the
stat layouts. -/
def ty_c_long : Nat × Nat := (8, 8)

def ty_c_ulong : Nat × Nat := (8, 8)

def ty_c_uint : Nat × Nat := (4, 4)

def ty_c_int : Nat × Nat := (4, 4)

def ty_timespec : Nat × Nat := (layoutSize [ty_c_long, ty_c_long], 8)

def ty_c_uint_x2 : Nat × Nat := (2 * ty_c_uint.1, ty_c_uint.2)

def ty_c_long_x3 : Nat × Nat := (3 * ty_c_long.1, ty_c_long.2)

/-- The `Stat` field lists of `shannot/structs.py` for the two supported
64-bit Linux targets, in declaration order (field names elided; explicit
`__pad`/`__unused`/`_reserved` members included as declared). -/
def stat_fields : TargetArch → List (Nat × Nat)
  | .aarch64 =>
    [ty_c_ulong, ty_c_ulong, ty_c_uint, ty_c_uint, ty_c_uint, ty_c_uint,
     ty_c_ulong, ty_c_ulong, ty_c_long, ty_c_int, ty_c_int, ty_c_long,
     ty_c_long, ty_c_long, ty_c_long, ty_c_long, ty_c_long, ty_c_long,
     ty_c_uint_x2]
  | .x86_64 =>
    [ty_c_ulong, ty_c_ulong, ty_c_ulong, ty_c_uint, ty_c_uint, ty_c_uint,
     ty_c_int, ty_c_ulong, ty_c_long, ty_c_long, ty_c_long, ty_timespec,
     ty_timespec, ty_timespec, ty_c_long_x3]

/-- `SIZEOF_STAT` for a declared target: ctypes `sizeof(Stat)` of the
selected layout. -/
def SIZEOF_STAT (a : TargetArch) : Nat := layoutSize (stat_fields a)

/-- The `stat` entries of `_EXPECTED_SIZES` in `shannot/structs.py`, the
table of known-correct sizes consulted by the `_validate` startup
self-check. -/
def expected_stat_size : TargetArch → Nat
  | .aarch64 => 128
  | .x86_64 => 144

/-! ### Shared class-level state (C9 model)

In Python, `subprocess_pending = []` and `subprocess_approved = set()`
are *class* attributes of `MixSubprocess`: a single list object and a
single set object created once when the class body executes.  The
methods only ever mutate these objects in place (`append`, `remove`,
`clear`, `add`, `update`) and never rebind `self.subprocess_pending` or
`self.subprocess_approved`, so attribute lookup on every instance
resolves to the same class-level objects.  The model below follows those
semantics: one class-level copy of the mutable state, and instances that
are mere views onto it. -/

/-- The interpreter-level picture of `MixSubprocess` state: the single
class-level pending list and approved set, plus the set of live instance
ids. No per-instance storage exists for these names because no method
ever assigns them on `self`. -/
structure PyWorld where
  cls_pending : List Str
  cls_approved : List Str
  instances : List Nat
deriving DecidableEq, Repr

/-- The world at class-definition time: empty class-level containers, no
instances. -/
def initWorld : PyWorld := { cls_pending := [], cls_approved := [], instances := [] }

/-- Instantiating `MixSubprocess` (the class defines no `__init__`
touching these names): registers the instance; the class-level
containers are untouched. -/
def mkInstance (w : PyWorld) (i : Nat) : PyWorld :=
  { w with instances := w.instances ++ [i] }

/-- The pending queue observed through instance `i`
(`self.subprocess_pending`): Python attribute lookup finds no instance
attribute and falls back to the class attribute. -/
def pendingOf (w : PyWorld) (_i : Nat) : List Str := w.cls_pending

/-- The approved set observed through instance `i`
(`self.subprocess_approved`). -/
def approvedOf (w : PyWorld) (_i : Nat) : List Str := w.cls_approved

/-- Queuing a command through instance `i`
(`self.subprocess_pending.append(cmd)` on the queue path of `s_system`):
an in-place mutation of the class-level list object. -/
def queueVia (w : PyWorld) (_i : Nat) (cmd : Str) : PyWorld :=
  { w with cls_pending := w.cls_pending ++ [cmd] }

/-- `approve_command` called through instance `i`:
`self.subprocess_approved.add(cmd)` then remove `cmd` from the pending
list if present — both in-place mutations of the class-level objects. -/
def approveVia (w : PyWorld) (_i : Nat) (cmd : Str) : PyWorld :=
  { w with
    cls_approved := if w.cls_approved.contains cmd then w.cls_approved
                    else w.cls_approved ++ [cmd],
    cls_pending := w.cls_pending.erase cmd }

/-! ### Reading the command from child memory (C10 model) -/

/-- Modelled from the spec: `sandio.read_charp` of the virtualized-process
layer (`shannot/virtualizedproc.py` and its I/O helper are not under
src/). Per §4.1 a pointer/buffer argument is "read as raw bytes of a
caller-specified length from the child's data channel"; a `charp` read is
the C string at the pointer, so the model takes the caller-specified
maximum number of bytes and cuts at the first NUL. -/
def read_charp (mem : List Nat) (maxlen : Nat) : List Nat :=
  (mem.take maxlen).takeWhile (fun b => b ≠ 0)

/-- `s_system` from the raw child memory at the command pointer: the
source reads at most 4096 bytes (`self.sandio.read_charp(p_command,
4096)`), decodes them (UTF-8 in the source; the decoder is passed in as
a function so the theorem quantifies over it), and proceeds as
`s_system`. -/
def s_system_raw (decode : List Nat → Str) (execRes : Str → Int)
    (st : SubpState) (mem : List Nat) : SysResult :=
  s_system execRes st (decode (read_charp mem 4096))

/-! ## Claims -/

/-- Claim C1: for every command string and fixed configuration sets, the
permission classification is the pure function `_check_permission` of
exactly `(cmd, always_deny, approved, auto_approve)` (repeated calls on
the same inputs are therefore the same decision), evaluated
first-match-wins: `deny` exactly when the base token or the exact string
is in the always-deny set; otherwise `allow` exactly when the exact
string is approved or the base token or exact string is auto-approved;
`queue` exactly in the remaining case. -/
theorem check_permission_first_match_wins
    (always_deny approved auto_approve : List Str) (cmd : Str) :
    (_check_permission always_deny approved auto_approve cmd = .deny ↔
      (_parse_command cmd).1 ∈ always_deny ∨ cmd ∈ always_deny) ∧
    (_check_permission always_deny approved auto_approve cmd = .allow ↔
      ¬((_parse_command cmd).1 ∈ always_deny ∨ cmd ∈ always_deny) ∧
      (cmd ∈ approved ∨
        ((_parse_command cmd).1 ∈ auto_approve ∨ cmd ∈ auto_approve))) ∧
    (_check_permission always_deny approved auto_approve cmd = .queue ↔
      ¬((_parse_command cmd).1 ∈ always_deny ∨ cmd ∈ always_deny) ∧
      cmd ∉ approved ∧
      ¬((_parse_command cmd).1 ∈ auto_approve ∨ cmd ∈ auto_approve)) := by
  unfold _check_permission
  by_cases h1 : (_parse_command cmd).1 ∈ always_deny ∨ cmd ∈ always_deny <;>
    by_cases h2 : cmd ∈ approved <;>
      by_cases h3 :
          (_parse_command cmd).1 ∈ auto_approve ∨ cmd ∈ auto_approve <;>
        simp_all [List.elem_iff, List.contains]

/-- Finding the first element failing `p` is taking the head after
dropping the longest prefix satisfying `p`. -/
theorem find?_bnot_eq_head_dropWhile {α : Type} (p : α → Bool) (l : List α) :
    l.find? (fun x => ! p x) = (l.dropWhile p).head? := by
  induction l with
  | nil => rfl
  | cons a l ih =>
    by_cases h : p a
    · simp [List.find?_cons, List.dropWhile_cons, h, ih]
    · simp [List.find?_cons, List.dropWhile_cons, h]

/-- Claim C7: the derived base-command token is obtained by splitting on
whitespace, skipping leading `KEY=VALUE`-shaped tokens (tokens containing
`=`) to the first genuine executable token, and stripping the path
prefix (everything up to the last `/`) from it; in particular a first
token without `=` is itself the stripped token, and an empty or
whitespace-only command yields the empty base token. -/
theorem parse_command_base_token (cmd : Str) :
    (pySplit cmd = [] → (_parse_command cmd).1 = []) ∧
    (∀ t ts, pySplit cmd = t :: ts → t.contains '=' = false →
      (_parse_command cmd).1 = stripPath t) ∧
    (∀ t ts, (pySplit cmd).dropWhile (fun p => p.contains '=') = t :: ts →
      (_parse_command cmd).1 = stripPath t) := by
  refine ⟨?_, ?_, ?_⟩
  · intro h
    unfold _parse_command
    simp [h]
  · intro t ts h hc
    unfold _parse_command
    rw [h]
    dsimp only
    rw [List.find?_cons]
    simp only [hc, Bool.not_false]
  · intro t ts h
    have hf : (pySplit cmd).find? (fun q => ! q.contains '=') = some t := by
      rw [find?_bnot_eq_head_dropWhile, h]
      rfl
    unfold _parse_command
    cases hsp : pySplit cmd with
    | nil => rw [hsp] at h; simp at h
    | cons p0 rest =>
      rw [hsp] at hf
      dsimp only
      rw [hf]

/-- Witness for C7 at a concrete command with an environment-variable
prefix and a path-qualified executable. -/
theorem parse_command_base_token_witness :
    (_parse_command "FOO=bar /usr/bin/python3 -m pip".data).1 =
      stripPath "/usr/bin/python3".data :=
  (parse_command_base_token "FOO=bar /usr/bin/python3 -m pip".data).2.2
    "/usr/bin/python3".data ["-m".data, "pip".data] (by decide)

/-- A concrete dispatcher state in dry-run mode, with `rm` always denied
(used by witnesses). -/
def stDry : SubpState :=
  { subprocess_auto_approve := []
    subprocess_always_deny := ["rm".data]
    subprocess_dry_run := true
    subprocess_pending := []
    subprocess_approved := []
    file_writes_pending := []
    pending_file := []
    subprocess_script_name := none
    subprocess_script_path := none
    subprocess_script_content := none
    subprocess_analysis := none
    subprocess_sandbox_args := [] }

/-- A concrete dispatcher state in normal mode, with `rm` always denied
and `echo` auto-approved (used by witnesses). -/
def stLive : SubpState :=
  { stDry with
    subprocess_dry_run := false
    subprocess_auto_approve := ["echo".data] }

/-- Claim C2: with global dry-run enabled, every `system()` request —
whatever its classification, including always-denied commands — is
queued: the command is appended to the pending queue (whose length grows
by exactly one), the child receives success status 0, and no subprocess
is executed. -/
theorem s_system_dry_run_forces_queue (execRes : Str → Int)
    (st : SubpState) (cmd : Str) (hdry : st.subprocess_dry_run = true) :
    (s_system execRes st cmd).status = 0 ∧
    (s_system execRes st cmd).state.subprocess_pending =
      st.subprocess_pending ++ [cmd] ∧
    (s_system execRes st cmd).state.subprocess_pending.length =
      st.subprocess_pending.length + 1 ∧
    (∀ c, Event.exec c ∉ (s_system execRes st cmd).trace) := by
  simp [s_system, hdry, subprocess_auto_persist]

/-- Witness for C2: Scenario C — dry run with `"apt-get update"` (and
`rm` in the always-deny set): queued, queue length 1, child sees 0. -/
theorem s_system_dry_run_forces_queue_witness :
    (s_system (fun _ => 1) stDry "apt-get update".data).status = 0 ∧
    (s_system (fun _ => 1) stDry "apt-get update".data).state.subprocess_pending =
      stDry.subprocess_pending ++ ["apt-get update".data] ∧
    (s_system (fun _ => 1) stDry "apt-get update".data).state.subprocess_pending.length =
      stDry.subprocess_pending.length + 1 ∧
    Event.exec "rm -rf /".data ∉
      (s_system (fun _ => 1) stDry "apt-get update".data).trace :=
  have h := s_system_dry_run_forces_queue (fun _ => 1) stDry
    "apt-get update".data (by decide)
  ⟨h.1, h.2.1, h.2.2.1, h.2.2.2 "rm -rf /".data⟩

/-- Claim C3: a command classified `queue` outside dry-run is appended
to the end of the pending queue, no subprocess is spawned, and the child
receives the fabricated success status 0 — the same value a genuinely
executed command exiting 0 would produce, so the reply is
indistinguishable from real success. -/
theorem s_system_queue_fabricated_success (execRes : Str → Int)
    (st : SubpState) (cmd : Str) (hdry : st.subprocess_dry_run = false)
    (hq : _check_permission st.subprocess_always_deny st.subprocess_approved
      st.subprocess_auto_approve cmd = .queue) :
    (s_system execRes st cmd).status = 0 ∧
    (s_system execRes st cmd).state.subprocess_pending =
      st.subprocess_pending ++ [cmd] ∧
    (∀ c, Event.exec c ∉ (s_system execRes st cmd).trace) := by
  simp [s_system, hdry, hq, subprocess_auto_persist]

/-- Witness for C3: `"apt-get update"` in normal mode with the concrete
configuration is neither denied, approved nor auto-approved, so it is
queued with status 0 and nothing executes. -/
theorem s_system_queue_fabricated_success_witness :
    (s_system (fun _ => 1) stLive "apt-get update".data).status = 0 ∧
    (s_system (fun _ => 1) stLive "apt-get update".data).state.subprocess_pending =
      stLive.subprocess_pending ++ ["apt-get update".data] ∧
    Event.exec "apt-get update".data ∉
      (s_system (fun _ => 1) stLive "apt-get update".data).trace :=
  have h := s_system_queue_fabricated_success (fun _ => 1) stLive
    "apt-get update".data (by decide) (by decide)
  ⟨h.1, h.2.1, h.2.2 "apt-get update".data⟩

/-- Claim C6: a command classified `deny` gets status 127 (the shell's
"command not found" status, nonzero), no subprocess is spawned, nothing
is persisted, and the whole state — pending queue and approved set
included — is unchanged. -/
theorem s_system_deny_not_found (execRes : Str → Int) (st : SubpState)
    (cmd : Str) (hdry : st.subprocess_dry_run = false)
    (hd : _check_permission st.subprocess_always_deny st.subprocess_approved
      st.subprocess_auto_approve cmd = .deny) :
    (s_system execRes st cmd).status = 127 ∧
    (s_system execRes st cmd).status ≠ 0 ∧
    (s_system execRes st cmd).state = st ∧
    (∀ c, Event.exec c ∉ (s_system execRes st cmd).trace) := by
  simp [s_system, hdry, hd]

/-- Witness for C6: Scenario B — `always_deny` contains `rm`, command
`"rm -rf /tmp/x"`: status 127, state untouched, nothing executed. -/
theorem s_system_deny_not_found_witness :
    (s_system (fun _ => 0) stLive "rm -rf /tmp/x".data).status = 127 ∧
    (s_system (fun _ => 0) stLive "rm -rf /tmp/x".data).status ≠ 0 ∧
    (s_system (fun _ => 0) stLive "rm -rf /tmp/x".data).state = stLive ∧
    Event.exec "rm -rf /tmp/x".data ∉
      (s_system (fun _ => 0) stLive "rm -rf /tmp/x".data).trace :=
  have h := s_system_deny_not_found (fun _ => 0) stLive "rm -rf /tmp/x".data
    (by decide) (by decide)
  ⟨h.1, h.2.1, h.2.2.1, h.2.2.2 "rm -rf /tmp/x".data⟩

/-- Claim C4: whenever a request is queued (by classification or by
dry-run), the durable queue file is written with the whole pending queue
— the new command included — strictly before the fabricated success
reply 0: the event trace is exactly the persist followed by the reply,
so the persist happens-before the reply at indices 0 < 1. -/
theorem s_system_persist_before_reply (execRes : Str → Int)
    (st : SubpState) (cmd : Str)
    (h : st.subprocess_dry_run = true ∨
      (st.subprocess_dry_run = false ∧
        _check_permission st.subprocess_always_deny st.subprocess_approved
          st.subprocess_auto_approve cmd = .queue)) :
    (s_system execRes st cmd).trace =
      [Event.persist (st.subprocess_pending ++ [cmd]), Event.reply 0] ∧
    cmd ∈ st.subprocess_pending ++ [cmd] ∧
    (s_system execRes st cmd).state.pending_file =
      st.subprocess_pending ++ [cmd] ∧
    (∃ i j : Nat, i < j ∧
      (s_system execRes st cmd).trace[i]? =
        some (Event.persist (st.subprocess_pending ++ [cmd])) ∧
      (s_system execRes st cmd).trace[j]? = some (Event.reply 0)) := by
  have htr : (s_system execRes st cmd).trace =
      [Event.persist (st.subprocess_pending ++ [cmd]), Event.reply 0] := by
    rcases h with h | ⟨h, hq⟩
    · simp [s_system, h, subprocess_auto_persist]
    · simp [s_system, h, hq, subprocess_auto_persist]
  have hpf : (s_system execRes st cmd).state.pending_file =
      st.subprocess_pending ++ [cmd] := by
    rcases h with h | ⟨h, hq⟩
    · simp [s_system, h, subprocess_auto_persist]
    · simp [s_system, h, hq, subprocess_auto_persist]
  refine ⟨htr, by simp, hpf, 0, 1, by omega, ?_, ?_⟩
  · rw [htr]
    rfl
  · rw [htr]
    rfl

/-- Witness for C4: the queued `"apt-get update"` in normal mode is
durably written (persist event at index 0) before the reply 0 (index 1),
and the queue file contains it after the call. -/
theorem s_system_persist_before_reply_witness :
    (s_system (fun _ => 1) stLive "apt-get update".data).trace =
      [Event.persist (stLive.subprocess_pending ++ ["apt-get update".data]),
        Event.reply 0] ∧
    "apt-get update".data ∈ stLive.subprocess_pending ++ ["apt-get update".data] ∧
    (s_system (fun _ => 1) stLive "apt-get update".data).state.pending_file =
      stLive.subprocess_pending ++ ["apt-get update".data] ∧
    (0 : Nat) < 1 ∧
    (s_system (fun _ => 1) stLive "apt-get update".data).trace[0]? =
      some (Event.persist
        (stLive.subprocess_pending ++ ["apt-get update".data])) ∧
    (s_system (fun _ => 1) stLive "apt-get update".data).trace[1]? =
      some (Event.reply 0) :=
  have h := s_system_persist_before_reply (fun _ => 1) stLive
    "apt-get update".data (Or.inr ⟨by decide, by decide⟩)
  ⟨h.1, h.2.1, h.2.2.1, by omega, by rw [h.1]; rfl, by rw [h.1]; rfl⟩

/-- Claim C10: `s_system` reads at most 4096 bytes of the command buffer
(`read_charp(p_command, 4096)`) before any permission decision: two
child memories agreeing on the first 4096 bytes at the command pointer
produce identical classification, queuing, execution trace, status and
final state, for every decoder and execution oracle. -/
theorem s_system_reads_at_most_4096 (decode : List Nat → Str)
    (execRes : Str → Int) (st : SubpState) (mem1 mem2 : List Nat)
    (h : mem1.take 4096 = mem2.take 4096) :
    s_system_raw decode execRes st mem1 =
      s_system_raw decode execRes st mem2 := by
  unfold s_system_raw read_charp
  rw [h]

/-- Witness for C10: two memories equal on the first 4096 bytes and
different at byte 4097 give identical results. -/
theorem s_system_reads_at_most_4096_witness :
    s_system_raw (fun bs => bs.map Char.ofNat) (fun _ => 1) stLive
      (List.replicate 4096 97 ++ [50]) =
    s_system_raw (fun bs => bs.map Char.ofNat) (fun _ => 1) stLive
      (List.replicate 4096 97 ++ [51]) :=
  s_system_reads_at_most_4096 (fun bs => bs.map Char.ofNat) (fun _ => 1)
    stLive (List.replicate 4096 97 ++ [50]) (List.replicate 4096 97 ++ [51])
    (by
      have h50 : (List.replicate 4096 (97 : Nat) ++ [50]).take 4096 =
          (List.replicate 4096 (97 : Nat)).take 4096 :=
        List.take_append_of_le_length (List.length_replicate _ _).ge
      have h51 : (List.replicate 4096 (97 : Nat) ++ [51]).take 4096 =
          (List.replicate 4096 (97 : Nat)).take 4096 :=
        List.take_append_of_le_length (List.length_replicate _ _).ge
      rw [h50, h51])

/-- Under dry-run, running a list of requests in order appends exactly
those commands, in order, to the pending queue. -/
theorem run_commands_dry_appends (execRes : Str → Int) (cmds : List Str)
    (st : SubpState) (h : st.subprocess_dry_run = true) :
    (run_commands execRes st cmds).subprocess_pending =
      st.subprocess_pending ++ cmds := by
  induction cmds generalizing st with
  | nil => simp [run_commands]
  | cons c cs ih =>
    have hp : (s_system execRes st c).state.subprocess_pending =
        st.subprocess_pending ++ [c] := by
      simp [s_system, h, subprocess_auto_persist]
    have hd : (s_system execRes st c).state.subprocess_dry_run = true := by
      simp [s_system, h, subprocess_auto_persist]
    unfold run_commands
    simp only [List.foldl_cons]
    have := ih (s_system execRes st c).state hd
    unfold run_commands at this
    rw [this, hp]
    simp

/-- Claim C5: `finalize_session` yields no reviewable unit exactly when
both the pending queue and the tracked pending writes are empty;
otherwise the session bundles the queued commands verbatim (hence in
request order — under dry-run a run of requests `cmds` finalizes to
exactly `cmds` in order), the pending writes, and the script metadata,
and the in-memory pending state is cleared. -/
theorem finalize_session_reviewable_unit (st : SubpState) :
    ((finalize_session st).1 = none ↔
      st.subprocess_pending = [] ∧ st.file_writes_pending = []) ∧
    (∀ s, (finalize_session st).1 = some s →
      s.commands = st.subprocess_pending ∧
      s.pending_writes = st.file_writes_pending ∧
      s.script_path = st.subprocess_script_path.getD "<unknown>".data ∧
      s.script_content = st.subprocess_script_content ∧
      (finalize_session st).2.subprocess_pending = [] ∧
      (finalize_session st).2.file_writes_pending = []) ∧
    (∀ execRes cmds s, st.subprocess_dry_run = true →
      st.subprocess_pending = [] →
      (finalize_session (run_commands execRes st cmds)).1 = some s →
      s.commands = cmds) := by
  have hcmds : ∀ st' : SubpState, ∀ s,
      (finalize_session st').1 = some s →
      s.commands = st'.subprocess_pending := by
    intro st' s hs
    unfold finalize_session at hs
    by_cases h : st'.subprocess_pending = [] ∧ st'.file_writes_pending = []
    · simp [h] at hs
    · simp [h, create_session] at hs
      rw [← hs]
  refine ⟨?_, ?_, ?_⟩
  · unfold finalize_session
    by_cases h : st.subprocess_pending = [] ∧ st.file_writes_pending = []
    · simp [h]
    · simp [h]
  · intro s hs
    refine ⟨hcmds st s hs, ?_⟩
    unfold finalize_session at hs ⊢
    by_cases h : st.subprocess_pending = [] ∧ st.file_writes_pending = []
    · simp [h] at hs
    · simp [h, create_session] at hs ⊢
      rw [← hs]
      simp
  · intro execRes cmds s hdry hemp hs
    rw [hcmds _ s hs, run_commands_dry_appends execRes cmds st hdry, hemp]
    simp

/-- A concrete state with one queued command and one tracked pending
write (used by the C5 witness). -/
def stFin : SubpState :=
  { stDry with
    subprocess_pending := ["apt-get update".data],
    file_writes_pending :=
      [{ path := "/etc/x".data, content := "y".data, is_new := true }] }

/-- The session `finalize_session` produces from `stFin` (used by the C5
witness). -/
def sessFin : Session :=
  { name := "<unknown>".data
    script_path := "<unknown>".data
    commands := ["apt-get update".data]
    script_content := none
    analysis := []
    sandbox_args := []
    pending_writes :=
      [{ path := "/etc/x".data, content := "y".data, is_new := true }] }

/-- Witness for C5: the state with one queued command and one pending
write finalizes to the session carrying exactly them, and the pending
state is cleared. -/
theorem finalize_session_reviewable_unit_witness :
    sessFin.commands = stFin.subprocess_pending ∧
    sessFin.pending_writes = stFin.file_writes_pending ∧
    sessFin.script_path = stFin.subprocess_script_path.getD "<unknown>".data ∧
    sessFin.script_content = stFin.subprocess_script_content ∧
    (finalize_session stFin).2.subprocess_pending = [] ∧
    (finalize_session stFin).2.file_writes_pending = [] :=
  (finalize_session_reviewable_unit stFin).2.1 sessFin (by decide)

/-- Claim C8: the stat layout selected for a declared 64-bit Linux ARM
(aarch64) target is 128 bytes, the one for 64-bit Linux x86_64 is 144
bytes, the two totals differ, each equals the entry of the
known-correct-size table used by the `_validate` startup self-check, and
each equals the plain sum of its declared field widths (the explicit
padding members included). -/
theorem stat_layout_sizes :
    SIZEOF_STAT .aarch64 = 128 ∧ SIZEOF_STAT .x86_64 = 144 ∧
    SIZEOF_STAT .aarch64 ≠ SIZEOF_STAT .x86_64 ∧
    (∀ a, SIZEOF_STAT a = expected_stat_size a) ∧
    (∀ a, ((stat_fields a).map Prod.fst).sum = SIZEOF_STAT a) := by
  refine ⟨by decide, by decide, by decide, ?_, ?_⟩ <;>
    (intro a; cases a <;> decide)

/-- Counterexample to C9: the pending queue and approved set are
class-level attribute objects mutated in place, so they are shared
between instances — queuing `"ls"` through instance 0 changes the
pending queue observed through the distinct instance 1, contradicting
the claim that mutating one instance's state never changes what another
instance observes. -/
theorem instances_share_state_counterexample :
    pendingOf (queueVia (mkInstance (mkInstance initWorld 0) 1) 0 "ls".data) 1 ≠
      pendingOf (mkInstance (mkInstance initWorld 0) 1) 1 := by
  decide

/-- Amended C9: the class-level pending queue and approved set are
created empty once at class-definition time and are shared by all
instances: queuing through any instance appends to the queue observed
through every instance (leaving every instance's approved set
unchanged), and approving through any instance updates the approved set
and pending queue observed through every instance. -/
theorem instances_share_state (w : PyWorld) (i j : Nat) (cmd : Str) :
    pendingOf initWorld i = [] ∧ approvedOf initWorld i = [] ∧
    pendingOf (queueVia w i cmd) j = pendingOf w j ++ [cmd] ∧
    approvedOf (queueVia w i cmd) j = approvedOf w j ∧
    approvedOf (approveVia w i cmd) j =
      (if (approvedOf w j).contains cmd then approvedOf w j
       else approvedOf w j ++ [cmd]) ∧
    pendingOf (approveVia w i cmd) j = (pendingOf w j).erase cmd := by
  simp [pendingOf, approvedOf, queueVia, approveVia, initWorld]

end Shannot
